import Mathlib

/-!
Shallow embedding of the bankr-railway-mvp gateway.

The repository has three express servers sharing one design:
  - src/server.js           (the full gateway: validation, classified errors)
  - src/unnamed/part_000    (proxy variant with poll overrides and a generic approve)
  - src/unnamed/part_001    (proxy variant with a fixed approve-bnkr endpoint)

Each handler is embedded as a pure function from its inputs (environment
configuration, request header, request body fields) and an oracle for the
downstream client call (an Except value: ok or a raw error message) to the
HTTP status, the response body shape, and the list of downstream calls made.
-/

namespace Bankr

/-- True iff the second list occurs at the head of the first. -/
def charsStartWith : List Char → List Char → Bool
  | _, [] => true
  | [], _ :: _ => false
  | c :: cs, p :: ps => c == p && charsStartWith cs ps

/-- True iff the second list occurs as a contiguous sublist of the first. -/
def charsContain : List Char → List Char → Bool
  | [], p => p.isEmpty
  | c :: rest, p => charsStartWith (c :: rest) p || charsContain rest p

/-- JS String.prototype.includes: true iff the pattern occurs as a
substring. -/
def includes (s pat : String) : Bool := charsContain s.data pat.data

/-- The numeric value of a decimal digit character. -/
def digitVal (c : Char) : Option Nat :=
  if 48 ≤ c.toNat && c.toNat ≤ 57 then some (c.toNat - 48) else none

/-- Accumulating decimal parse over a list of characters. -/
def decValAux : List Char → Nat → Option Nat
  | [], acc => some acc
  | c :: rest, acc =>
    match digitVal c with
    | none => none
    | some d => decValAux rest (acc * 10 + d)

/-- Decimal value of a string of digits; none when the string is empty or
holds a non-digit. -/
def decVal (s : String) : Option Nat :=
  match s.data with
  | [] => none
  | l => decValAux l 0

/-- The closed set of domain error kinds (spec section 3, ErrorKind). -/
inductive ErrorKind
  | PAYMENT_REQUIRED
  | UNAUTHORIZED
  | NOT_FOUND
  | TIMEOUT
  | RATE_LIMITED
  | VALIDATION_ERROR
  | INTERNAL
deriving DecidableEq, Repr

/-- The ErrorKind to HTTP status mapping as written in the spec (section 4.4).
This definition follows the words of the spec, for comparison with the
renderers embedded from the source. -/
def specKindStatus : ErrorKind → Nat
  | .PAYMENT_REQUIRED => 402
  | .UNAUTHORIZED => 401
  | .NOT_FOUND => 404
  | .TIMEOUT => 408
  | .RATE_LIMITED => 429
  | .VALIDATION_ERROR => 400
  | .INTERNAL => 500

/-- The code string server.js actually writes into the error body for
each kind, read off the branches at lines 198-222, 245-264, 323-347,
102-116 and 69-83. -/
def serverCodeOf : ErrorKind → String
  | .PAYMENT_REQUIRED => "PAYMENT_REQUIRED"
  | .UNAUTHORIZED => "UNAUTHORIZED"
  | .NOT_FOUND => "JOB_NOT_FOUND"
  | .TIMEOUT => "REQUEST_TIMEOUT"
  | .RATE_LIMITED => "RATE_LIMIT_EXCEEDED"
  | .VALIDATION_ERROR => "VALIDATION_ERROR"
  | .INTERNAL => "INTERNAL_ERROR"

/-- Shape of a JSON response body, at the level of detail the claims need:
an object whose error field is a plain string (the part_000 and part_001
style), or the uniform object carrying success=false, an error object
with code, message and optional details, and a timestamp (the server.js
formatErrorResponse style), or the server.js unhealthy body carrying
status, timestamp, uptime, bankrConnection and a plain string error field
but neither success=false nor an error code, or a success payload. -/
inductive ResponseBody
  | errStr (msg : String)
  | errObj (code message : String) (details : Option String)
  | unhealthyObj (msg : String)
  | payload
deriving DecidableEq, Repr

/-- The error code field of a body, when the body has one. -/
def ResponseBody.codeField : ResponseBody → Option String
  | .errObj c _ _ => some c
  | _ => none

/-- True iff the body has the uniform error shape of spec section 6:
success false, an error object with a code, and a timestamp. -/
def ResponseBody.uniformErrorShape : ResponseBody → Bool
  | .errObj _ _ _ => true
  | _ => false

/-- server.js lines 119-127: formatErrorResponse builds the uniform error
body from a code, a message and optional details. -/
def formatErrorResponse (code message : String) (details : Option String) : ResponseBody :=
  ResponseBody.errObj code message details

/-- server.js lines 198-222: the catch branch of POST /api/prompt.
Message containing 402 gives 402 PAYMENT_REQUIRED, containing 401 gives
401 UNAUTHORIZED, anything else 500 INTERNAL_ERROR. -/
def serverPromptErrorResponse (msg : String) : Nat × ResponseBody :=
  if includes msg "402" then
    (402, formatErrorResponse "PAYMENT_REQUIRED" "Payment required for this request"
      (some "Ensure you have sufficient $BNKR tokens and proper allowance set"))
  else if includes msg "401" then
    (401, formatErrorResponse "UNAUTHORIZED" "Invalid API key"
      (some "Check your Bankr API key configuration"))
  else
    (500, formatErrorResponse "INTERNAL_ERROR" "Failed to submit prompt" (some msg))

/-- server.js lines 245-264: the catch branch of GET /api/job/:jobId.
Message containing 404 gives 404 JOB_NOT_FOUND, anything else 500
INTERNAL_ERROR. -/
def serverJobErrorResponse (msg : String) : Nat × ResponseBody :=
  if includes msg "404" then
    (404, formatErrorResponse "JOB_NOT_FOUND" "Job not found"
      (some "The specified job ID does not exist"))
  else
    (500, formatErrorResponse "INTERNAL_ERROR" "Failed to retrieve job status" (some msg))

/-- server.js lines 323-347: the catch branch of POST /api/prompt-and-wait.
The checks run in source order: timeout first, then 402, then the 500
fallback. -/
def serverPromptAndWaitErrorResponse (msg : String) : Nat × ResponseBody :=
  if includes msg "timeout" then
    (408, formatErrorResponse "REQUEST_TIMEOUT" "Request timed out"
      (some "The request took longer than the specified timeout period"))
  else if includes msg "402" then
    (402, formatErrorResponse "PAYMENT_REQUIRED" "Payment required for this request"
      (some "Ensure you have sufficient $BNKR tokens and proper allowance set"))
  else
    (500, formatErrorResponse "INTERNAL_ERROR" "Failed to process prompt and wait request"
      (some msg))

/-- The ErrorKind abstraction of the POST /api/prompt catch branch: which
domain kind each branch of serverPromptErrorResponse represents. -/
def classifyPromptError (msg : String) : ErrorKind :=
  if includes msg "402" then .PAYMENT_REQUIRED
  else if includes msg "401" then .UNAUTHORIZED
  else .INTERNAL

/-- The ErrorKind abstraction of the GET /api/job/:jobId catch branch. -/
def classifyJobError (msg : String) : ErrorKind :=
  if includes msg "404" then .NOT_FOUND
  else .INTERNAL

/-- The ErrorKind abstraction of the POST /api/prompt-and-wait catch branch. -/
def classifyPromptAndWaitError (msg : String) : ErrorKind :=
  if includes msg "timeout" then .TIMEOUT
  else if includes msg "402" then .PAYMENT_REQUIRED
  else .INTERNAL

/-- server.js lines 102-116: handleValidationErrors renders 400 with the
uniform body and code VALIDATION_ERROR. -/
def validationErrorResponse : Nat × ResponseBody :=
  (400, formatErrorResponse "VALIDATION_ERROR" "Invalid request data" (some "errors array"))

/-- server.js lines 69-83: the rate limiter body, code RATE_LIMIT_EXCEEDED.
Modelled from the spec for the status: the express-rate-limit middleware
(external library) rejects with HTTP status 429. -/
def rateLimitResponse : Nat × ResponseBody :=
  (429, formatErrorResponse "RATE_LIMIT_EXCEEDED" "Too many requests, please try again later"
    (some "Rate limit exceeded. Please wait before making more requests."))

/-! ## The poll-until-terminal loop (PollOrchestrator) -/

/-- Job status values (spec section 3). -/
inductive Status
  | pending
  | processing
  | completed
  | failed
deriving DecidableEq, Repr

/-- A status is terminal when it is completed or failed. -/
def Status.isTerminal : Status → Bool
  | .completed => true
  | .failed => true
  | _ => false

/-- The three poll parameters passed to promptAndWait (spec section 3,
PollConfig). -/
structure PollConfig where
  interval : Nat
  maxAttempts : Nat
  timeout : Nat
deriving DecidableEq, Repr

/-- Modelled from the spec: the poll loop inside the SDK promptAndWait
(spec section 4.1), absent from src/. Each iteration first stops if the
wall clock reached the timeout, otherwise sleeps one interval, performs
one status check, and stops on a terminal status. The fuel argument is
instantiated with maxAttempts, so attempts are capped independently of
the timeout. The sched oracle gives the status returned by the nth check.
Returns the terminal status found (none means TIMEOUT), the number of
status checks performed, and the elapsed wall-clock time. -/
def pollAux (cfg : PollConfig) (sched : Nat → Status) :
    Nat → Nat → Nat → Option Status × Nat × Nat
  | 0, polls, elapsed => (none, polls, elapsed)
  | fuel + 1, polls, elapsed =>
    if cfg.timeout ≤ elapsed then (none, polls, elapsed)
    else if (sched polls).isTerminal then (some (sched polls), polls + 1, elapsed + cfg.interval)
    else pollAux cfg sched fuel (polls + 1) (elapsed + cfg.interval)

/-- Modelled from the spec: submitAndAwait (spec section 4.1) submits once,
returns immediately on an already terminal initial status, and otherwise
runs the bounded poll loop. -/
def submitAndAwait (cfg : PollConfig) (initial : Status) (sched : Nat → Status) :
    Option Status × Nat × Nat :=
  if initial.isTerminal then (some initial, 0, 0)
  else pollAux cfg sched cfg.maxAttempts 0 0

/-- server.js lines 307-314: the PollConfig the POST /api/prompt-and-wait
handler passes to promptAndWait. maxAttempts is computed as
Math.floor(timeout / interval). -/
def serverPollConfig (timeout interval : Nat) : PollConfig :=
  { interval := interval, maxAttempts := timeout / interval, timeout := timeout }

/-- part_000 lines 42-49: the PollConfig of POST /api/bankr/prompt; each
field is taken from the optional poll object of the body, with defaults
2000, 150 and 300000. -/
def part000PollConfig (pInterval pMaxAttempts pTimeout : Option Nat) : PollConfig :=
  { interval := pInterval.getD 2000
    maxAttempts := pMaxAttempts.getD 150
    timeout := pTimeout.getD 300000 }

/-- part_001 lines 58-65: the fixed PollConfig of POST /api/bankr/promptAndWait. -/
def part001PollConfig : PollConfig :=
  { interval := 2000, maxAttempts := 150, timeout := 300000 }

/-! ## Handlers -/

/-- A downstream client call made by a handler; allowance and approval
calls record the spender address they target, a promptAndWait call records
the PollConfig it is given. -/
inductive Call
  | promptCall
  | getJobStatusCall
  | promptAndWaitCall (cfg : PollConfig)
  | checkAllowanceCall (spender : String)
  | approveCall (spender : String)
deriving DecidableEq, Repr

/-- The spender address a call targets, when it has one. -/
def Call.spenderOf : Call → Option String
  | .checkAllowanceCall s => some s
  | .approveCall s => some s
  | _ => none

/-- What a handler produced: the HTTP status, the body shape, and the
downstream calls made, in order. -/
structure HandlerResult where
  status : Nat
  body : ResponseBody
  calls : List Call
deriving DecidableEq, Repr

/-- JS truthiness of an optional string: undefined and the empty string
are falsy. -/
def truthy : Option String → Bool
  | none => false
  | some s => s != ""

/-- part_000 lines 35-37, 65-67 and part_001 lines 36-38, 51-53: the guard
rejects when the configured BANKR_PROXY_TOKEN is truthy and the
x-proxy-token header (undefined when absent) differs from it. -/
def proxyGuardRejects (configured header : Option String) : Bool :=
  truthy configured && header != configured

/-- server.js lines 163-167: the express-validator rule for prompt, a
string of length 1 to 10000. -/
def serverPromptValid (prompt : Option String) : Bool :=
  match prompt with
  | none => false
  | some p => 1 ≤ p.length && p.length ≤ 10000

/-- The fixed facilitator address of server.js lines 141, 353, 386 and
part_001 line 39. -/
def FACILITATOR : String := "0x4a15fc613c713FC52E907a77071Ec2d0a392a584"

/-- server.js lines 138-160: GET /api/health probes the downstream by
checking the allowance of the fixed facilitator; on success it answers
200, and on a thrown error it answers 503 with the unhealthy body, whose
error field is the raw message string and which carries no success=false
and no error code. -/
def serverHealthHandler (down : Except String Unit) : HandlerResult :=
  match down with
  | .ok _ => { status := 200, body := .payload, calls := [.checkAllowanceCall FACILITATOR] }
  | .error msg =>
    { status := 503, body := .unhealthyObj msg, calls := [.checkAllowanceCall FACILITATOR] }

/-- server.js lines 163-223: POST /api/prompt. server.js has no
proxy-token check, so the first two arguments are never consulted:
validation runs, then bankrClient.prompt is called, and a thrown error is
rendered by the catch branch. -/
def serverPromptHandler (_configuredToken _header : Option String) (prompt : Option String)
    (down : Except String Unit) : HandlerResult :=
  if !serverPromptValid prompt then
    { status := validationErrorResponse.1, body := validationErrorResponse.2, calls := [] }
  else
    match down with
    | .ok _ => { status := 200, body := .payload, calls := [.promptCall] }
    | .error msg =>
      { status := (serverPromptErrorResponse msg).1
        body := (serverPromptErrorResponse msg).2
        calls := [.promptCall] }

/-- server.js lines 281-297 validation of POST /api/prompt-and-wait:
prompt as above, timeout optionally an integer in 1000..300000, interval
optionally an integer in 1000..10000. -/
def serverPromptAndWaitValid (prompt : Option String) (timeout interval : Option Nat) : Bool :=
  serverPromptValid prompt &&
  (match timeout with
   | none => true
   | some t => 1000 ≤ t && t ≤ 300000) &&
  (match interval with
   | none => true
   | some i => 1000 ≤ i && i ≤ 10000)

/-- server.js lines 268-348: POST /api/prompt-and-wait. After validation,
timeout defaults to 300000 and interval to 2000, and promptAndWait is
called with the serverPollConfig of lines 307-314. -/
def serverPromptAndWaitHandler (prompt : Option String) (timeout interval : Option Nat)
    (down : Except String Unit) : HandlerResult :=
  if !serverPromptAndWaitValid prompt timeout interval then
    { status := validationErrorResponse.1, body := validationErrorResponse.2, calls := [] }
  else
    let cfg := serverPollConfig (timeout.getD 300000) (interval.getD 2000)
    match down with
    | .ok _ => { status := 200, body := .payload, calls := [.promptAndWaitCall cfg] }
    | .error msg =>
      { status := (serverPromptAndWaitErrorResponse msg).1
        body := (serverPromptAndWaitErrorResponse msg).2
        calls := [.promptAndWaitCall cfg] }

/-- server.js lines 351-376: GET /api/allowance checks the allowance of
the fixed facilitator; a thrown error gives 500 INTERNAL_ERROR. -/
def serverAllowanceHandler (down : Except String Unit) : HandlerResult :=
  match down with
  | .ok _ => { status := 200, body := .payload, calls := [.checkAllowanceCall FACILITATOR] }
  | .error msg =>
    { status := 500
      body := formatErrorResponse "INTERNAL_ERROR" "Failed to check allowance" (some msg)
      calls := [.checkAllowanceCall FACILITATOR] }

/-- server.js lines 379-417: POST /api/approve approves the fixed
facilitator; a thrown error gives 500 INTERNAL_ERROR. -/
def serverApproveHandler (_amount : Option String) (down : Except String Unit) : HandlerResult :=
  match down with
  | .ok _ => { status := 200, body := .payload, calls := [.approveCall FACILITATOR] }
  | .error msg =>
    { status := 500
      body := formatErrorResponse "INTERNAL_ERROR" "Failed to approve tokens" (some msg)
      calls := [.approveCall FACILITATOR] }

/-- part_000 lines 33-60: POST /api/bankr/prompt. Proxy-token guard, then
the prompt presence check, then promptAndWait with part000PollConfig; the
catch branch renders 500 with the raw message as the error string. -/
def part000PromptHandler (configuredToken header : Option String) (prompt : Option String)
    (pInterval pMaxAttempts pTimeout : Option Nat) (down : Except String Unit) : HandlerResult :=
  if proxyGuardRejects configuredToken header then
    { status := 401, body := .errStr "unauthorized", calls := [] }
  else if !truthy prompt then
    { status := 400, body := .errStr "prompt is required", calls := [] }
  else
    let cfg := part000PollConfig pInterval pMaxAttempts pTimeout
    match down with
    | .ok _ => { status := 200, body := .payload, calls := [.promptAndWaitCall cfg] }
    | .error msg => { status := 500, body := .errStr msg, calls := [.promptAndWaitCall cfg] }

/-- part_000 lines 63-75: POST /api/bankr/approve. Proxy-token guard, then
the spender presence check; the spender passed to client.approve comes
from the request body. -/
def part000ApproveHandler (configuredToken header : Option String) (spender : Option String)
    (down : Except String Unit) : HandlerResult :=
  if proxyGuardRejects configuredToken header then
    { status := 401, body := .errStr "unauthorized", calls := [] }
  else if !truthy spender then
    { status := 400, body := .errStr "spender is required", calls := [] }
  else
    match spender with
    | none => { status := 400, body := .errStr "spender is required", calls := [] }
    | some sp =>
      match down with
      | .ok _ => { status := 200, body := .payload, calls := [.approveCall sp] }
      | .error msg => { status := 500, body := .errStr msg, calls := [.approveCall sp] }

/-- part_001 lines 34-46: POST /api/bankr/approve-bnkr. Proxy-token guard,
then approve of the fixed facilitator followed by a checkAllowance of the
same address; a thrown error renders 500 with the raw message. -/
def part001ApproveBnkrHandler (configuredToken header : Option String)
    (downApprove downAllowance : Except String Unit) : HandlerResult :=
  if proxyGuardRejects configuredToken header then
    { status := 401, body := .errStr "unauthorized", calls := [] }
  else
    match downApprove with
    | .error msg => { status := 500, body := .errStr msg, calls := [.approveCall FACILITATOR] }
    | .ok _ =>
      match downAllowance with
      | .error msg =>
        { status := 500, body := .errStr msg
          calls := [.approveCall FACILITATOR, .checkAllowanceCall FACILITATOR] }
      | .ok _ =>
        { status := 200, body := .payload
          calls := [.approveCall FACILITATOR, .checkAllowanceCall FACILITATOR] }

/-- part_001 lines 49-76: POST /api/bankr/promptAndWait. Proxy-token
guard, then the prompt presence check, then promptAndWait with the fixed
part001PollConfig. -/
def part001PromptAndWaitHandler (configuredToken header : Option String)
    (prompt : Option String) (down : Except String Unit) : HandlerResult :=
  if proxyGuardRejects configuredToken header then
    { status := 401, body := .errStr "unauthorized", calls := [] }
  else if !truthy prompt then
    { status := 400, body := .errStr "prompt is required", calls := [] }
  else
    match down with
    | .ok _ => { status := 200, body := .payload, calls := [.promptAndWaitCall part001PollConfig] }
    | .error msg =>
      { status := 500, body := .errStr msg, calls := [.promptAndWaitCall part001PollConfig] }

/-! ## Approval amounts -/

/-- The maximum representable unsigned 256-bit value. -/
def maxUint256 : Nat := 2 ^ 256 - 1

/-- server.js line 387: the decimal string used as the default approval
amount. -/
def serverMaxUint256Str : String :=
  "115792089237316195423570985008687907853269984665640564039457584007913129639935"

/-- server.js line 387: amount = req.body.amount or the max uint256
string; the JS or-default also replaces an empty string. -/
def serverApproveAmount : Option String → String
  | none => serverMaxUint256Str
  | some a => if a = "" then serverMaxUint256Str else a

/-- Modelled from the spec: the SDK approve (absent from src/) defaults an
omitted amount to the maximum representable unsigned 256-bit value (spec
section 4.2). part_000 line 70 passes undefined when the body has no
amount. -/
def sdkApproveAmount (amount : Option Nat) : Nat := amount.getD maxUint256

/-- Modelled from the spec: the maxUint256 constant imported from viem
(external library) in part_001 line 4, the maximum representable unsigned
256-bit value. -/
def viemMaxUint256 : Nat := 2 ^ 256 - 1

/-! ## Startup -/

/-- The environment variables the startup checks consult. -/
structure ServerEnv where
  bankrApiKey : Option String
  privateKey : Option String
  walletAddress : Option String
deriving DecidableEq, Repr

/-- How startup ends: process.exit(1), a thrown error, or the HTTP
listener established. -/
inductive StartupOutcome
  | exit1
  | thrown
  | listening
deriving DecidableEq, Repr

/-- server.js lines 29-50 and 445: if any of BANKR_API_KEY, PRIVATE_KEY,
WALLET_ADDRESS is falsy, process.exit(1); then the BankrClient
constructor runs and a thrown error also gives process.exit(1); only then
app.listen runs. -/
def serverStartup (env : ServerEnv) (clientInit : Except String Unit) : StartupOutcome :=
  if !truthy env.bankrApiKey || !truthy env.privateKey || !truthy env.walletAddress then
    .exit1
  else
    match clientInit with
    | .error _ => .exit1
    | .ok _ => .listening

/-- part_000 lines 14-16 and part_001 lines 15-17: if BANKR_API_KEY or
BANKR_PRIVATE_KEY is falsy, a top-level error is thrown before app.listen. -/
def proxyStartup (apiKey privateKey : Option String) : StartupOutcome :=
  if !truthy apiKey || !truthy privateKey then .thrown
  else .listening

/-! ## Theorems -/

/-- The number of status checks pollAux performs is bounded by the fuel it
is given. -/
theorem pollAux_polls_le (cfg : PollConfig) (sched : Nat → Status)
    (fuel polls elapsed : Nat) :
    (pollAux cfg sched fuel polls elapsed).2.1 ≤ polls + fuel := by
  induction fuel generalizing polls elapsed with
  | zero => simp [pollAux]
  | succ n ih =>
    unfold pollAux
    split
    · simp
    · split
      · simp
      · have h := ih (polls + 1) (elapsed + cfg.interval)
        omega

/-- The elapsed clock pollAux reports never exceeds timeout plus one
interval of slack, whatever the fuel. -/
theorem pollAux_elapsed_le (cfg : PollConfig) (sched : Nat → Status)
    (fuel polls elapsed : Nat) (h : elapsed ≤ cfg.timeout + cfg.interval) :
    (pollAux cfg sched fuel polls elapsed).2.2 ≤ cfg.timeout + cfg.interval := by
  induction fuel generalizing polls elapsed with
  | zero => simpa [pollAux] using h
  | succ n ih =>
    unfold pollAux
    split
    · simpa using h
    · rename_i hlt
      split
      · simp only
        omega
      · exact ih (polls + 1) (elapsed + cfg.interval) (by omega)

/-- C1 (amended): the spec-modelled poll loop performs at most maxAttempts
status checks and its wall clock never exceeds timeout plus one interval
of slack, for every configuration, so neither bound alone is relied on;
but the two bounds are not independent at every invocation: server.js
passes maxAttempts derived as floor(timeout / interval), while part_000
passes a caller-supplied maxAttempts. -/
theorem c1_poll_bounds (cfg : PollConfig) (initial : Status) (sched : Nat → Status)
    (t i : Nat) :
    ((submitAndAwait cfg initial sched).2.1 ≤ cfg.maxAttempts ∧
     (submitAndAwait cfg initial sched).2.2 ≤ cfg.timeout + cfg.interval) ∧
    (serverPollConfig t i).maxAttempts = t / i ∧
    (∀ pm : Nat, (part000PollConfig none (some pm) none).maxAttempts = pm) := by
  refine ⟨?_, rfl, fun pm => rfl⟩
  unfold submitAndAwait
  split
  · simp
  · constructor
    · simpa using pollAux_polls_le cfg sched cfg.maxAttempts 0 0
    · exact pollAux_elapsed_le cfg sched cfg.maxAttempts 0 0 (by omega)

/-- C1 counterexample: at the server.js invocation of promptAndWait the
maxAttempts bound is derived from the other two parameters: with timeout
300000 fixed, changing the interval from 2000 to 3000 changes maxAttempts
from 150 to 100, refuting that the two bounds are not derived one from
the other. -/
theorem c1_counterexample :
    (serverPollConfig 300000 2000).maxAttempts = 300000 / 2000 ∧
    (serverPollConfig 300000 2000).maxAttempts = 150 ∧
    (serverPollConfig 300000 3000).maxAttempts = 100 ∧
    (serverPollConfig 300000 2000).maxAttempts ≠ (serverPollConfig 300000 3000).maxAttempts := by
  exact ⟨rfl, rfl, rfl, by decide⟩

/-- C3: classification of a raw downstream error is total: each catch
branch assigns every message exactly one kind from the closed set, a
message matching none of the recognized patterns falls through to
INTERNAL, and the part_000 catch branch renders every thrown error as a
response (status 500), never propagating it unhandled. -/
theorem c3_classification_total (msg : String) :
    (classifyPromptError msg = ErrorKind.PAYMENT_REQUIRED ∨
     classifyPromptError msg = ErrorKind.UNAUTHORIZED ∨
     classifyPromptError msg = ErrorKind.INTERNAL) ∧
    (classifyJobError msg = ErrorKind.NOT_FOUND ∨
     classifyJobError msg = ErrorKind.INTERNAL) ∧
    (classifyPromptAndWaitError msg = ErrorKind.TIMEOUT ∨
     classifyPromptAndWaitError msg = ErrorKind.PAYMENT_REQUIRED ∨
     classifyPromptAndWaitError msg = ErrorKind.INTERNAL) ∧
    (includes msg "402" = false → includes msg "401" = false →
      classifyPromptError msg = ErrorKind.INTERNAL) ∧
    (includes msg "402" = true → classifyPromptError msg = ErrorKind.PAYMENT_REQUIRED) ∧
    (part000PromptHandler none none (some "p") none none none (Except.error msg)).status = 500 := by
  refine ⟨?_, ?_, ?_, ?_, ?_, rfl⟩
  · unfold classifyPromptError
    split
    · exact Or.inl rfl
    · split
      · exact Or.inr (Or.inl rfl)
      · exact Or.inr (Or.inr rfl)
  · unfold classifyJobError
    split
    · exact Or.inl rfl
    · exact Or.inr rfl
  · unfold classifyPromptAndWaitError
    split
    · exact Or.inl rfl
    · split
      · exact Or.inr (Or.inl rfl)
      · exact Or.inr (Or.inr rfl)
  · intro h4 h1
    simp [classifyPromptError, h4, h1]
  · intro h4
    simp [classifyPromptError, h4]

/-- C3 witness: a connection error matching no recognized pattern is
classified INTERNAL. -/
theorem c3_witness : classifyPromptError "ECONNREFUSED" = ErrorKind.INTERNAL :=
  (c3_classification_total "ECONNREFUSED").2.2.2.1 (by decide) (by decide)

/-- C4: with the amount omitted, every approve path requests exactly
2 ^ 256 - 1: server.js defaults the amount string to the max uint256
decimal literal, part_000 passes undefined so the spec-modelled SDK
default applies, and part_001 always passes the viem maxUint256 constant. -/
theorem c4_approve_default_is_max_uint256 :
    decVal (serverApproveAmount none) = some maxUint256 ∧
    decVal (serverApproveAmount (some "")) = some maxUint256 ∧
    sdkApproveAmount none = maxUint256 ∧
    viemMaxUint256 = 2 ^ 256 - 1 ∧
    maxUint256 = 2 ^ 256 - 1 := by
  exact ⟨by decide, by decide, rfl, rfl, rfl⟩

/-- C2 (amended): the HTTP status of every classified error response
follows the spec mapping for its kind, and the code field in the body is
the fixed handler constant serverCodeOf of the kind, which coincides with
the kind name only for PAYMENT_REQUIRED, UNAUTHORIZED and
VALIDATION_ERROR (NOT_FOUND renders JOB_NOT_FOUND, TIMEOUT renders
REQUEST_TIMEOUT, RATE_LIMITED renders RATE_LIMIT_EXCEEDED, INTERNAL
renders INTERNAL_ERROR). -/
theorem c2_status_follows_kind (msg : String) :
    ((serverPromptErrorResponse msg).1 = specKindStatus (classifyPromptError msg) ∧
     (serverJobErrorResponse msg).1 = specKindStatus (classifyJobError msg) ∧
     (serverPromptAndWaitErrorResponse msg).1 = specKindStatus (classifyPromptAndWaitError msg) ∧
     validationErrorResponse.1 = specKindStatus ErrorKind.VALIDATION_ERROR ∧
     rateLimitResponse.1 = specKindStatus ErrorKind.RATE_LIMITED) ∧
    (((serverPromptErrorResponse msg).2).codeField = some (serverCodeOf (classifyPromptError msg)) ∧
     ((serverJobErrorResponse msg).2).codeField = some (serverCodeOf (classifyJobError msg)) ∧
     ((serverPromptAndWaitErrorResponse msg).2).codeField =
       some (serverCodeOf (classifyPromptAndWaitError msg)) ∧
     (validationErrorResponse.2).codeField = some (serverCodeOf ErrorKind.VALIDATION_ERROR) ∧
     (rateLimitResponse.2).codeField = some (serverCodeOf ErrorKind.RATE_LIMITED)) := by
  by_cases ht : includes msg "timeout" <;>
    by_cases h4 : includes msg "402" <;>
      by_cases h1 : includes msg "401" <;>
        by_cases h0 : includes msg "404" <;>
          simp [serverPromptErrorResponse, serverJobErrorResponse,
            serverPromptAndWaitErrorResponse, classifyPromptError, classifyJobError,
            classifyPromptAndWaitError, validationErrorResponse, rateLimitResponse,
            formatErrorResponse, ResponseBody.codeField, specKindStatus, serverCodeOf,
            ht, h4, h1, h0]

/-- C2 counterexample: a timed-out prompt-and-wait call is rendered with
status 408 but body code REQUEST_TIMEOUT, which is not the ErrorKind name
TIMEOUT. -/
theorem c2_counterexample :
    (serverPromptAndWaitErrorResponse "timeout").1 = 408 ∧
    ((serverPromptAndWaitErrorResponse "timeout").2).codeField = some "REQUEST_TIMEOUT" ∧
    ("REQUEST_TIMEOUT" : String) ≠ "TIMEOUT" := by
  exact ⟨by decide, by decide, by decide⟩

/-- C5 (amended): when a proxy secret is configured, the part_000 and
part_001 handlers answer 401 with no downstream call on a missing or
mismatched x-proxy-token; the server.js variant has no proxy-token gate. -/
theorem c5_proxy_token_gates_proxy_variants (secret : String) (hs : secret ≠ "")
    (header : Option String) (hh : header ≠ some secret)
    (prompt spender : Option String) (i1 m1 t1 : Option Nat)
    (d1 d2 d3 d4 d5 : Except String Unit) :
    part000PromptHandler (some secret) header prompt i1 m1 t1 d1 =
      { status := 401, body := .errStr "unauthorized", calls := [] } ∧
    part000ApproveHandler (some secret) header spender d2 =
      { status := 401, body := .errStr "unauthorized", calls := [] } ∧
    part001ApproveBnkrHandler (some secret) header d3 d4 =
      { status := 401, body := .errStr "unauthorized", calls := [] } ∧
    part001PromptAndWaitHandler (some secret) header prompt d5 =
      { status := 401, body := .errStr "unauthorized", calls := [] } := by
  have hg : proxyGuardRejects (some secret) header = true := by
    unfold proxyGuardRejects truthy
    rw [Bool.and_eq_true, bne_iff_ne, bne_iff_ne]
    exact ⟨hs, hh⟩
  refine ⟨?_, ?_, ?_, ?_⟩ <;>
    simp [part000PromptHandler, part000ApproveHandler, part001ApproveBnkrHandler,
      part001PromptAndWaitHandler, hg]

/-- C5 witness: with secret s3cret configured and no header sent, each
gated proxy endpoint answers 401 and makes no downstream call. -/
theorem c5_witness :
    part000PromptHandler (some "s3cret") none (some "hi") none none none (Except.ok ()) =
      { status := 401, body := .errStr "unauthorized", calls := [] } ∧
    part000ApproveHandler (some "s3cret") none (some "0xabc") (Except.ok ()) =
      { status := 401, body := .errStr "unauthorized", calls := [] } ∧
    part001ApproveBnkrHandler (some "s3cret") none (Except.ok ()) (Except.ok ()) =
      { status := 401, body := .errStr "unauthorized", calls := [] } ∧
    part001PromptAndWaitHandler (some "s3cret") none (some "hi") (Except.ok ()) =
      { status := 401, body := .errStr "unauthorized", calls := [] } :=
  c5_proxy_token_gates_proxy_variants "s3cret" (by decide) none (by decide)
    (some "hi") (some "0xabc") none none none
    (Except.ok ()) (Except.ok ()) (Except.ok ()) (Except.ok ()) (Except.ok ())

/-- C5 counterexample: the server.js prompt handler ignores any configured
secret: with a secret configured and no x-proxy-token header, a valid
request still runs domain logic and makes the downstream call instead of
answering 401. -/
theorem c5_counterexample :
    (serverPromptHandler (some "s3cret") none (some "hi") (Except.ok ())).status = 200 ∧
    (serverPromptHandler (some "s3cret") none (some "hi") (Except.ok ())).calls =
      [Call.promptCall] := by
  exact ⟨by decide, by decide⟩

/-- C6 (amended): a missing or empty prompt is rejected with 400 before
any downstream call in all three variants; the body carries code
VALIDATION_ERROR in the server.js variant, while part_000 and part_001
answer the plain string body, prompt is required, with no code field. -/
theorem c6_validation_before_downstream (prompt : Option String)
    (hbad : prompt = none ∨ prompt = some "")
    (tok hdr : Option String) (i1 m1 t1 : Option Nat) (d1 d2 d3 : Except String Unit) :
    serverPromptHandler tok hdr prompt d1 =
      { status := 400, body := validationErrorResponse.2, calls := [] } ∧
    ((serverPromptHandler tok hdr prompt d1).body).codeField = some "VALIDATION_ERROR" ∧
    part000PromptHandler none none prompt i1 m1 t1 d2 =
      { status := 400, body := .errStr "prompt is required", calls := [] } ∧
    part001PromptAndWaitHandler none none prompt d3 =
      { status := 400, body := .errStr "prompt is required", calls := [] } := by
  rcases hbad with rfl | rfl <;> exact ⟨rfl, rfl, rfl, rfl⟩

/-- C6 witness: a body with no prompt at all is rejected with 400 and no
downstream call by the server.js handler. -/
theorem c6_witness :
    serverPromptHandler none none none (Except.ok ()) =
      { status := 400, body := validationErrorResponse.2, calls := [] } :=
  (c6_validation_before_downstream none (Or.inl rfl) none none none none none
    (Except.ok ()) (Except.ok ()) (Except.ok ())).1

/-- C6 counterexample: on a missing prompt the part_000 handler answers
400 with no downstream call, but its body has no code field at all, so
the code is not VALIDATION_ERROR. -/
theorem c6_counterexample :
    (part000PromptHandler none none none none none none (Except.ok ())).status = 400 ∧
    (part000PromptHandler none none none none none none (Except.ok ())).calls = [] ∧
    ((part000PromptHandler none none none none none none (Except.ok ())).body).codeField ≠
      some "VALIDATION_ERROR" := by
  exact ⟨rfl, rfl, by decide⟩

/-- C7 (amended): every allowance query and approval of the server.js
endpoints and of the part_001 approve-bnkr endpoint targets the fixed
facilitator address; the part_000 approve endpoint instead passes the
spender taken from the request body. -/
theorem c7_facilitator_fixed (d1 d2 d3 d4 : Except String Unit)
    (amount : Option String) (tok hdr : Option String) :
    (((serverAllowanceHandler d1).calls).all fun c => c.spenderOf == some FACILITATOR) = true ∧
    (((serverApproveHandler amount d2).calls).all fun c => c.spenderOf == some FACILITATOR) = true ∧
    (((part001ApproveBnkrHandler tok hdr d3 d4).calls).all
      fun c => c.spenderOf == some FACILITATOR) = true ∧
    (∀ sp : String, sp ≠ "" →
      (part000ApproveHandler none none (some sp) d1).calls = [Call.approveCall sp]) := by
  refine ⟨?_, ?_, ?_, ?_⟩
  · cases d1 <;> rfl
  · cases d2 <;> rfl
  · by_cases hg : proxyGuardRejects tok hdr = true
    · simp [part001ApproveBnkrHandler, hg]
    · rw [Bool.not_eq_true] at hg
      cases d3 <;> cases d4 <;>
        simp [part001ApproveBnkrHandler, hg, Call.spenderOf]
  · intro sp hsp
    have : truthy (some sp) = true := by
      unfold truthy
      rwa [bne_iff_ne]
    cases d1 <;> simp [part000ApproveHandler, proxyGuardRejects, truthy, this, hsp]

/-- C7 witness: the server.js allowance endpoint queries the facilitator,
and part_000 forwards a caller-chosen spender. -/
theorem c7_witness :
    (((serverAllowanceHandler (Except.ok ())).calls).all
      fun c => c.spenderOf == some FACILITATOR) = true ∧
    (part000ApproveHandler none none (some "0xdead") (Except.ok ())).calls =
      [Call.approveCall "0xdead"] := by
  have h := c7_facilitator_fixed (Except.ok ()) (Except.ok ()) (Except.ok ()) (Except.ok ())
    none none none
  exact ⟨h.1, h.2.2.2 "0xdead" (by decide)⟩

/-- C7 counterexample: the part_000 approve endpoint submits an approval
whose spender is the caller-supplied body field, here an address that is
not the facilitator. -/
theorem c7_counterexample :
    (part000ApproveHandler none none
        (some "0x1111111111111111111111111111111111111111") (Except.ok ())).calls =
      [Call.approveCall "0x1111111111111111111111111111111111111111"] ∧
    ("0x1111111111111111111111111111111111111111" : String) ≠ FACILITATOR := by
  exact ⟨rfl, by decide⟩

/-- C8 (amended): every error response of the server.js business
endpoints and middleware has the uniform shape with success false, an
error object carrying a code, and a timestamp: the three classified catch
branches, the validation middleware, the rate limiter, and everything
rendered through formatErrorResponse (which includes the 404 fallback and
the global error handler); but the server.js health endpoint failure path
answers 503 with the unhealthy body, which lacks that shape, and the
part_000 and part_001 variants answer bodies whose error field is a plain
string without that shape. -/
theorem c8_uniform_shape_server_only (msg code message : String) (details : Option String) :
    (((serverPromptErrorResponse msg).2).uniformErrorShape = true ∧
     ((serverJobErrorResponse msg).2).uniformErrorShape = true ∧
     ((serverPromptAndWaitErrorResponse msg).2).uniformErrorShape = true ∧
     (validationErrorResponse.2).uniformErrorShape = true ∧
     (rateLimitResponse.2).uniformErrorShape = true ∧
     (formatErrorResponse code message details).uniformErrorShape = true) ∧
    ((serverHealthHandler (Except.error msg)).status = 503 ∧
     ((serverHealthHandler (Except.error msg)).body).uniformErrorShape = false) ∧
    (ResponseBody.errStr msg).uniformErrorShape = false := by
  refine ⟨⟨?_, ?_, ?_, rfl, rfl, rfl⟩, ⟨rfl, rfl⟩, rfl⟩
  · unfold serverPromptErrorResponse
    split
    · rfl
    · split <;> rfl
  · unfold serverJobErrorResponse
    split <;> rfl
  · unfold serverPromptAndWaitErrorResponse
    split
    · rfl
    · split <;> rfl

/-- C8 counterexample: two error responses without the uniform shape. The
part_000 catch branch renders a thrown downstream error as a body whose
error field is the raw message string, and the server.js health endpoint
failure path answers 503 with the unhealthy body; neither has the uniform
success, code and timestamp shape. -/
theorem c8_counterexample :
    (part000PromptHandler none none (some "hi") none none none (Except.error "boom")).body =
      ResponseBody.errStr "boom" ∧
    (((part000PromptHandler none none (some "hi") none none none
        (Except.error "boom")).body).uniformErrorShape) = false ∧
    (serverHealthHandler (Except.error "boom")).status = 503 ∧
    (serverHealthHandler (Except.error "boom")).body = ResponseBody.unhealthyObj "boom" ∧
    (((serverHealthHandler (Except.error "boom")).body).uniformErrorShape) = false := by
  exact ⟨rfl, rfl, rfl, rfl, rfl⟩

/-- C9: in the prompt-and-wait catch branch the timeout check runs before
the 402 check, so a message containing both signals is rendered 408 with
code REQUEST_TIMEOUT, not 402 with PAYMENT_REQUIRED. -/
theorem c9_timeout_beats_payment (msg : String)
    (ht : includes msg "timeout" = true) (_h4 : includes msg "402" = true) :
    (serverPromptAndWaitErrorResponse msg).1 = 408 ∧
    ((serverPromptAndWaitErrorResponse msg).2).codeField = some "REQUEST_TIMEOUT" ∧
    (serverPromptAndWaitErrorResponse msg).1 ≠ 402 ∧
    ((serverPromptAndWaitErrorResponse msg).2).codeField ≠ some "PAYMENT_REQUIRED" := by
  simp [serverPromptAndWaitErrorResponse, ht, formatErrorResponse, ResponseBody.codeField]

/-- C9 witness: a concrete message carrying both a timeout signal and 402
is rendered 408 REQUEST_TIMEOUT. -/
theorem c9_witness :
    (serverPromptAndWaitErrorResponse "timeout while handling 402").1 = 408 ∧
    ((serverPromptAndWaitErrorResponse "timeout while handling 402").2).codeField =
      some "REQUEST_TIMEOUT" := by
  have h := c9_timeout_beats_payment "timeout while handling 402" (by decide) (by decide)
  exact ⟨h.1, h.2.1⟩

/-- C10: startup refuses to serve when credentials are absent: a falsy
required environment variable makes server.js exit with status 1 and
makes the proxy variants throw, in both cases before the listener is
established; the listening outcome implies all credentials were present. -/
theorem c10_startup_requires_credentials (env : ServerEnv) (ci : Except String Unit)
    (ak pk : Option String) :
    ((truthy env.bankrApiKey = false ∨ truthy env.privateKey = false ∨
        truthy env.walletAddress = false) →
      serverStartup env ci = StartupOutcome.exit1) ∧
    ((truthy ak = false ∨ truthy pk = false) →
      proxyStartup ak pk = StartupOutcome.thrown) ∧
    (serverStartup env ci = StartupOutcome.listening →
      truthy env.bankrApiKey = true ∧ truthy env.privateKey = true ∧
        truthy env.walletAddress = true) ∧
    (proxyStartup ak pk = StartupOutcome.listening →
      truthy ak = true ∧ truthy pk = true) := by
  refine ⟨?_, ?_, ?_, ?_⟩
  · intro h
    unfold serverStartup
    rcases h with h | h | h <;> simp [h]
  · intro h
    unfold proxyStartup
    rcases h with h | h <;> simp [h]
  · intro h
    unfold serverStartup at h
    by_cases ha : truthy env.bankrApiKey = true <;>
      by_cases hp : truthy env.privateKey = true <;>
        by_cases hw : truthy env.walletAddress = true <;>
          simp_all
  · intro h
    unfold proxyStartup at h
    by_cases ha : truthy ak = true <;> by_cases hp : truthy pk = true <;> simp_all

/-- C10 witness: with the API key unset, server.js exits with status 1
and the proxy variants throw. -/
theorem c10_witness :
    serverStartup { bankrApiKey := none, privateKey := some "k", walletAddress := some "w" }
      (Except.ok ()) = StartupOutcome.exit1 ∧
    proxyStartup none (some "k") = StartupOutcome.thrown := by
  have h := c10_startup_requires_credentials
    { bankrApiKey := none, privateKey := some "k", walletAddress := some "w" }
    (Except.ok ()) none (some "k")
  exact ⟨h.1 (Or.inl (by decide)), h.2.1 (Or.inl (by decide))⟩

end Bankr
